import Mathlib

/-!
# Verification of the panel-selection analyzer (`src/analyze_selected_panels.py`)

This file gives a shallow embedding of the `PanelTracker` state machine and
of the top-user ranking step of `generate_aggregate_stats`, translated from
the Python source, and proves properties of the embedded definitions.

Modelling conventions:
* Python `set` objects (`employee_panels_opened`, `current_employee_panels`)
  are modelled as duplicate-free `List String` values in insertion order;
  `set.add` is `setInsert` (append if absent), `set.discard` is `List.erase`.
  The eviction step `list(s)[:k]` in `process_panel_added` enumerates the set;
  the embedding fixes insertion order as the enumeration order (the source's
  comment calls the evicted panels "the oldest"), so the eviction drops the
  first `k` elements of the list.
* The `Counter` field `base_panel_activations` is modelled as a total function
  `String → Nat` (absent keys count 0).  The source only ever increments keys
  that are members of `BASE_PANELS`, so `sum(counter.values())` is embedded as
  the sum of the function over the five base-panel names.
* Python truthiness of `self.last_activated_employee_panel` (None and the
  empty string are falsy) is modelled by `lastTruthy`.
* `list.remove(x)` guarded by `if x in list` is `List.erase` (removes the
  first occurrence, no-op when absent), matching the source exactly.
-/

/-- The base panels that are standard across all users
(`BASE_PANELS` in the source). -/
def BASE_PANELS : List String :=
  ["employees", "documents", "import", "reports", "management"]

/-- Business rule: maximum number of concurrent employee panels
(`MAX_CONCURRENT_EMPLOYEE_PANELS` in the source). -/
def MAX_CONCURRENT_EMPLOYEE_PANELS : Nat := 5

/-- A classified panel event, as dispatched by `analyze_panel_usage`:
`Switch Panel Activated/Added/Removed: <panel>`. -/
inductive Event where
  | activated (panel : String)
  | added (panel : String)
  | removed (panel : String)
deriving DecidableEq, Repr

/-- State of `PanelTracker` (`__init__`).  Sets are insertion-ordered
duplicate-free lists; the `Counter` is a total function. -/
structure PanelTracker where
  user : String
  base_panel_activations : String → Nat
  employee_panels_opened : List String
  current_employee_panels : List String
  max_concurrent_employee_panels : Nat
  employee_panel_switches : Nat
  last_activated_employee_panel : Option String
  activation_history : List String

/-- `PanelTracker.__init__(user)`: all counters zero, all collections empty. -/
def initTracker (user : String) : PanelTracker :=
  { user := user
    base_panel_activations := fun _ => 0
    employee_panels_opened := []
    current_employee_panels := []
    max_concurrent_employee_panels := 0
    employee_panel_switches := 0
    last_activated_employee_panel := none
    activation_history := [] }

/-- Python `set.add` on an insertion-ordered duplicate-free list:
append the element if it is not already present. -/
def setInsert (l : List String) (x : String) : List String :=
  if x ∈ l then l else l ++ [x]

/-- Python truthiness of `self.last_activated_employee_panel`:
`None` and the empty string are falsy, every other string is truthy. -/
def lastTruthy : Option String → Bool
  | none => false
  | some s => !(s == "")

/-- `PanelTracker.process_panel_activated(panel)`.  The nested conditionals
mirror the source: the outer test is
`last_activated_employee_panel and last_activated_employee_panel != panel
and panel in current_employee_panels`, the inner test is
`panel in activation_history and activation_history`. -/
def process_panel_activated (panel : String) (t : PanelTracker) : PanelTracker :=
  if panel ∈ BASE_PANELS then
    { t with base_panel_activations :=
        fun p => if p = panel then t.base_panel_activations p + 1
                 else t.base_panel_activations p }
  else
    let t1 :=
      if lastTruthy t.last_activated_employee_panel ∧
         t.last_activated_employee_panel ≠ some panel ∧
         panel ∈ t.current_employee_panels then
        if panel ∈ t.activation_history ∧ t.activation_history ≠ [] then
          { t with employee_panel_switches := t.employee_panel_switches + 1 }
        else t
      else t
    { t1 with
        last_activated_employee_panel := some panel
        activation_history := setInsert t1.activation_history panel }

/-- `PanelTracker.process_panel_added(panel)`.  For a non-base panel the
panel joins both sets; if the open set then exceeds the cap, the excess
panels at the front of the enumeration are discarded
(`list(current)[:len-cap]`); finally the high-water mark is updated. -/
def process_panel_added (panel : String) (t : PanelTracker) : PanelTracker :=
  if panel ∈ BASE_PANELS then t
  else
    let opened := setInsert t.employee_panels_opened panel
    let cur := setInsert t.current_employee_panels panel
    let cur2 :=
      if cur.length > MAX_CONCURRENT_EMPLOYEE_PANELS then
        cur.drop (cur.length - MAX_CONCURRENT_EMPLOYEE_PANELS)
      else cur
    { t with
        employee_panels_opened := opened
        current_employee_panels := cur2
        max_concurrent_employee_panels :=
          max t.max_concurrent_employee_panels cur2.length }

/-- `PanelTracker.process_panel_removed(panel)`.  For a non-base panel:
discard from the open set, clear `last_activated_employee_panel` if it was
this panel, and remove the panel from `activation_history` if present. -/
def process_panel_removed (panel : String) (t : PanelTracker) : PanelTracker :=
  if panel ∈ BASE_PANELS then t
  else
    { t with
        current_employee_panels := t.current_employee_panels.erase panel
        last_activated_employee_panel :=
          if t.last_activated_employee_panel = some panel then none
          else t.last_activated_employee_panel
        activation_history := t.activation_history.erase panel }

/-- Dispatch of one classified event to its handler, as in the body of
`analyze_panel_usage`. -/
def stepEvent (t : PanelTracker) (e : Event) : PanelTracker :=
  match e with
  | .activated p => process_panel_activated p t
  | .added p => process_panel_added p t
  | .removed p => process_panel_removed p t

/-- Run a tracker over a sequence of classified events in arrival order. -/
def runFrom (t : PanelTracker) (events : List Event) : PanelTracker :=
  events.foldl stepEvent t

/-- Run a fresh tracker (for a fixed user id) over an event sequence. -/
def runEvents (events : List Event) : PanelTracker :=
  runFrom (initTracker "U") events

/-- A tracker state is reachable when some event sequence produces it from a
fresh tracker. -/
def Reachable (t : PanelTracker) : Prop :=
  ∃ user events, runFrom (initTracker user) events = t

/-- The record returned by `PanelTracker.get_summary` (the
`base_panel_activations` dict itself is kept in the tracker; the summary
fields used by the aggregator are embedded). -/
structure Summary where
  user : String
  total_base_activations : Nat
  unique_employee_panels_opened : Nat
  max_concurrent_employee_panels : Nat
  employee_panel_switches : Nat
  has_switched_employee_panels : Bool
deriving DecidableEq, Repr

/-- `PanelTracker.get_summary()`.  `sum(base_panel_activations.values())` is
the sum over the five base panels, since only base-panel keys are ever
incremented; `len(employee_panels_opened)` is the list length (the list is
duplicate-free by construction). -/
def get_summary (t : PanelTracker) : Summary :=
  { user := t.user
    total_base_activations := (BASE_PANELS.map t.base_panel_activations).sum
    unique_employee_panels_opened := t.employee_panels_opened.length
    max_concurrent_employee_panels := t.max_concurrent_employee_panels
    employee_panel_switches := t.employee_panel_switches
    has_switched_employee_panels := t.employee_panel_switches > 0 }

/-- The six employee-panel state fields of a tracker, bundled for the
frame-effect statements (everything except `user` and
`base_panel_activations`). -/
def employeeState (t : PanelTracker) :
    List String × List String × Nat × Nat × Option String × List String :=
  (t.employee_panels_opened, t.current_employee_panels,
   t.max_concurrent_employee_panels, t.employee_panel_switches,
   t.last_activated_employee_panel, t.activation_history)

/-- Python `sorted(l, key=key, reverse=True)`: a stable descending sort,
embedded as `mergeSort` with the comparison `key b ≤ key a` (Python's sort
is stable, and `reverse=True` preserves the original order of equal keys). -/
def sortedByDesc (key : Summary → Nat) (l : List Summary) : List Summary :=
  l.mergeSort (fun a b => key b ≤ key a)

/-- `top_base_users` in `generate_aggregate_stats`:
`sorted(user_summaries, key=lambda x: x['total_base_activations'], reverse=True)[:10]`. -/
def top_base_users (user_summaries : List Summary) : List Summary :=
  (sortedByDesc (fun x => x.total_base_activations) user_summaries).take 10

/-- `top_employee_panel_users` in `generate_aggregate_stats`. -/
def top_employee_panel_users (user_summaries : List Summary) : List Summary :=
  (sortedByDesc (fun x => x.unique_employee_panels_opened) user_summaries).take 10

/-- `top_concurrent_users` in `generate_aggregate_stats`. -/
def top_concurrent_users (user_summaries : List Summary) : List Summary :=
  (sortedByDesc (fun x => x.max_concurrent_employee_panels) user_summaries).take 10

/-- `top_switchers` in `generate_aggregate_stats`. -/
def top_switchers (user_summaries : List Summary) : List Summary :=
  (sortedByDesc (fun x => x.employee_panel_switches) user_summaries).take 10

/-- The combined guard under which `process_panel_activated` increments
`employee_panel_switches` for a non-base panel: the conjunction of the
source's outer test (truthy `last_activated_employee_panel`, different
panel, panel currently open) and inner test (panel in `activation_history`,
history nonempty). -/
def switchCond (t : PanelTracker) (panel : String) : Prop :=
  lastTruthy t.last_activated_employee_panel = true ∧
  t.last_activated_employee_panel ≠ some panel ∧
  panel ∈ t.current_employee_panels ∧
  panel ∈ t.activation_history ∧
  t.activation_history ≠ []

instance (t : PanelTracker) (panel : String) : Decidable (switchCond t panel) := by
  unfold switchCond
  infer_instance

/-! ## Helper lemmas about `setInsert` -/

lemma mem_setInsert {l : List String} {x p : String} :
    p ∈ setInsert l x ↔ p ∈ l ∨ p = x := by
  unfold setInsert
  split
  · rename_i h
    constructor
    · exact Or.inl
    · rintro (hp | rfl) <;> [exact hp; exact h]
  · simp

lemma mem_setInsert_self (l : List String) (x : String) : x ∈ setInsert l x := by
  rw [mem_setInsert]; exact Or.inr rfl

lemma setInsert_of_mem {l : List String} {x : String} (h : x ∈ l) :
    setInsert l x = l := by
  unfold setInsert; exact if_pos h

lemma setInsert_nodup {l : List String} {x : String} (h : l.Nodup) :
    (setInsert l x).Nodup := by
  unfold setInsert
  split
  · exact h
  · rename_i hx
    simp [List.nodup_append, h, hx]

lemma length_setInsert_le (l : List String) (x : String) :
    (setInsert l x).length ≤ l.length + 1 := by
  unfold setInsert
  split
  · exact Nat.le_succ_of_le (Nat.le_refl _)
  · simp

/-! ## Field characterizations of the three handlers -/

lemma activated_current (p : String) (t : PanelTracker) :
    (process_panel_activated p t).current_employee_panels =
      t.current_employee_panels := by
  unfold process_panel_activated
  split
  · rfl
  · split
    · split <;> rfl
    · rfl

lemma activated_opened (p : String) (t : PanelTracker) :
    (process_panel_activated p t).employee_panels_opened =
      t.employee_panels_opened := by
  unfold process_panel_activated
  split
  · rfl
  · split
    · split <;> rfl
    · rfl

lemma activated_max (p : String) (t : PanelTracker) :
    (process_panel_activated p t).max_concurrent_employee_panels =
      t.max_concurrent_employee_panels := by
  unfold process_panel_activated
  split
  · rfl
  · split
    · split <;> rfl
    · rfl

lemma activated_user (p : String) (t : PanelTracker) :
    (process_panel_activated p t).user = t.user := by
  unfold process_panel_activated
  split
  · rfl
  · split
    · split <;> rfl
    · rfl

lemma activated_history_of_not_base {p : String} (t : PanelTracker)
    (h : p ∉ BASE_PANELS) :
    (process_panel_activated p t).activation_history =
      setInsert t.activation_history p := by
  unfold process_panel_activated
  rw [if_neg h]
  split
  · split <;> rfl
  · rfl

lemma activated_last_of_not_base {p : String} (t : PanelTracker)
    (h : p ∉ BASE_PANELS) :
    (process_panel_activated p t).last_activated_employee_panel = some p := by
  unfold process_panel_activated
  rw [if_neg h]

lemma activated_counts_of_not_base {p : String} (t : PanelTracker)
    (h : p ∉ BASE_PANELS) :
    (process_panel_activated p t).base_panel_activations =
      t.base_panel_activations := by
  unfold process_panel_activated
  rw [if_neg h]
  split
  · split <;> rfl
  · rfl

lemma activated_of_base {p : String} (t : PanelTracker) (h : p ∈ BASE_PANELS) :
    process_panel_activated p t =
      { t with base_panel_activations :=
          fun q => if q = p then t.base_panel_activations q + 1
                   else t.base_panel_activations q } := by
  unfold process_panel_activated
  rw [if_pos h]

lemma added_of_base {p : String} (t : PanelTracker) (h : p ∈ BASE_PANELS) :
    process_panel_added p t = t := by
  unfold process_panel_added
  rw [if_pos h]

lemma removed_of_base {p : String} (t : PanelTracker) (h : p ∈ BASE_PANELS) :
    process_panel_removed p t = t := by
  unfold process_panel_removed
  rw [if_pos h]

lemma added_counts (p : String) (t : PanelTracker) :
    (process_panel_added p t).base_panel_activations =
      t.base_panel_activations := by
  unfold process_panel_added
  split
  · rfl
  · rfl

lemma removed_counts (p : String) (t : PanelTracker) :
    (process_panel_removed p t).base_panel_activations =
      t.base_panel_activations := by
  unfold process_panel_removed
  split
  · rfl
  · rfl

lemma added_switches (p : String) (t : PanelTracker) :
    (process_panel_added p t).employee_panel_switches =
      t.employee_panel_switches := by
  unfold process_panel_added
  split
  · rfl
  · rfl

lemma removed_switches (p : String) (t : PanelTracker) :
    (process_panel_removed p t).employee_panel_switches =
      t.employee_panel_switches := by
  unfold process_panel_removed
  split
  · rfl
  · rfl

lemma added_history (p : String) (t : PanelTracker) :
    (process_panel_added p t).activation_history = t.activation_history := by
  unfold process_panel_added
  split
  · rfl
  · rfl

lemma removed_of_not_base {p : String} (t : PanelTracker) (h : p ∉ BASE_PANELS) :
    process_panel_removed p t =
      { t with
          current_employee_panels := t.current_employee_panels.erase p
          last_activated_employee_panel :=
            if t.last_activated_employee_panel = some p then none
            else t.last_activated_employee_panel
          activation_history := t.activation_history.erase p } := by
  unfold process_panel_removed
  rw [if_neg h]

/-! ## Reachability invariants of the tracker -/

/-- Structural invariants maintained by every reachable tracker state. -/
structure TrackerInv (t : PanelTracker) : Prop where
  cur_nodup : t.current_employee_panels.Nodup
  cur_nonbase : ∀ p ∈ t.current_employee_panels, p ∉ BASE_PANELS
  cur_sub_opened : ∀ p ∈ t.current_employee_panels, p ∈ t.employee_panels_opened
  cur_le_cap : t.current_employee_panels.length ≤ MAX_CONCURRENT_EMPLOYEE_PANELS
  cur_le_max : t.current_employee_panels.length ≤ t.max_concurrent_employee_panels
  hist_nodup : t.activation_history.Nodup
  hist_nonbase : ∀ p ∈ t.activation_history, p ∉ BASE_PANELS

lemma inv_init (user : String) : TrackerInv (initTracker user) := by
  constructor <;> simp [initTracker]

lemma inv_activated {t : PanelTracker} (h : TrackerInv t) (p : String) :
    TrackerInv (process_panel_activated p t) := by
  by_cases hb : p ∈ BASE_PANELS
  · rw [activated_of_base t hb]
    exact { h with }
  · constructor
    · rw [activated_current]; exact h.cur_nodup
    · rw [activated_current]; exact h.cur_nonbase
    · rw [activated_current, activated_opened]; exact h.cur_sub_opened
    · rw [activated_current]; exact h.cur_le_cap
    · rw [activated_current, activated_max]; exact h.cur_le_max
    · rw [activated_history_of_not_base t hb]
      exact setInsert_nodup h.hist_nodup
    · rw [activated_history_of_not_base t hb]
      intro q hq
      rcases mem_setInsert.mp hq with hq | rfl
      · exact h.hist_nonbase q hq
      · exact hb

lemma inv_added {t : PanelTracker} (h : TrackerInv t) (p : String) :
    TrackerInv (process_panel_added p t) := by
  by_cases hb : p ∈ BASE_PANELS
  · rw [added_of_base t hb]; exact h
  · unfold process_panel_added
    rw [if_neg hb]
    dsimp only
    refine ⟨?_, ?_, ?_, ?_, ?_, h.hist_nodup, h.hist_nonbase⟩ <;> dsimp only
    · split
      · exact (setInsert_nodup h.cur_nodup).sublist (List.drop_sublist _ _)
      · exact setInsert_nodup h.cur_nodup
    · intro q hq
      have hq1 : q ∈ setInsert t.current_employee_panels p := by
        revert hq; split
        · exact fun hq => List.drop_subset _ _ hq
        · exact fun hq => hq
      rcases mem_setInsert.mp hq1 with hq' | rfl
      · exact h.cur_nonbase q hq'
      · exact hb
    · intro q hq
      have hq1 : q ∈ setInsert t.current_employee_panels p := by
        revert hq; split
        · exact fun hq => List.drop_subset _ _ hq
        · exact fun hq => hq
      rcases mem_setInsert.mp hq1 with hq' | rfl
      · exact mem_setInsert.mpr (Or.inl (h.cur_sub_opened q hq'))
      · exact mem_setInsert_self _ _
    · have hlen1 : (setInsert t.current_employee_panels p).length ≤
          MAX_CONCURRENT_EMPLOYEE_PANELS + 1 :=
        le_trans (length_setInsert_le _ _) (Nat.succ_le_succ h.cur_le_cap)
      split
      · rename_i hgt
        rw [List.length_drop]
        omega
      · rename_i hgt
        omega
    · exact Nat.le_max_right _ _

lemma inv_removed {t : PanelTracker} (h : TrackerInv t) (p : String) :
    TrackerInv (process_panel_removed p t) := by
  by_cases hb : p ∈ BASE_PANELS
  · rw [removed_of_base t hb]; exact h
  · rw [removed_of_not_base t hb]
    constructor
    · exact h.cur_nodup.erase p
    · exact fun q hq => h.cur_nonbase q (List.erase_subset _ _ hq)
    · exact fun q hq => h.cur_sub_opened q (List.erase_subset _ _ hq)
    · exact le_trans (List.erase_sublist p _).length_le h.cur_le_cap
    · exact le_trans (List.erase_sublist p _).length_le h.cur_le_max
    · exact h.hist_nodup.erase p
    · exact fun q hq => h.hist_nonbase q (List.erase_subset _ _ hq)

lemma inv_step {t : PanelTracker} (h : TrackerInv t) (e : Event) : TrackerInv (stepEvent t e) := by
  cases e with
  | activated p => exact inv_activated h p
  | added p => exact inv_added h p
  | removed p => exact inv_removed h p

lemma inv_runFrom {t : PanelTracker} (h : TrackerInv t) (events : List Event) :
    TrackerInv (runFrom t events) := by
  induction events generalizing t with
  | nil => exact h
  | cons e es ih => exact ih (inv_step h e)

lemma reachable_inv {t : PanelTracker} (h : Reachable t) : TrackerInv t := by
  obtain ⟨user, events, rfl⟩ := h
  exact inv_runFrom (inv_init user) events

lemma reachable_step {t : PanelTracker} (h : Reachable t) (e : Event) :
    Reachable (stepEvent t e) := by
  obtain ⟨user, events, rfl⟩ := h
  exact ⟨user, events ++ [e], by simp [runFrom, List.foldl_append]⟩

/-! ## The switch-counter characterization -/

lemma activated_switches (p : String) (t : PanelTracker) :
    (process_panel_activated p t).employee_panel_switches =
      if p ∉ BASE_PANELS ∧ switchCond t p then t.employee_panel_switches + 1
      else t.employee_panel_switches := by
  unfold process_panel_activated
  by_cases hb : p ∈ BASE_PANELS
  · rw [if_pos hb, if_neg (by intro hc; exact hc.1 hb)]
  · rw [if_neg hb]
    dsimp only
    by_cases h1 : lastTruthy t.last_activated_employee_panel = true ∧
        t.last_activated_employee_panel ≠ some p ∧
        p ∈ t.current_employee_panels
    · rw [if_pos h1]
      by_cases h2 : p ∈ t.activation_history ∧ t.activation_history ≠ []
      · rw [if_pos h2,
          if_pos (show p ∉ BASE_PANELS ∧ switchCond t p from
            ⟨hb, h1.1, h1.2.1, h1.2.2, h2.1, h2.2⟩)]
      · rw [if_neg h2,
          if_neg (show ¬(p ∉ BASE_PANELS ∧ switchCond t p) from
            fun hc => h2 ⟨hc.2.2.2.2.1, hc.2.2.2.2.2⟩)]
    · rw [if_neg h1,
        if_neg (show ¬(p ∉ BASE_PANELS ∧ switchCond t p) from
          fun hc => h1 ⟨hc.2.1, hc.2.2.1, hc.2.2.2.1⟩)]

/-! ## No-op and membership lemmas for `process_panel_added` -/

lemma added_noop {t : PanelTracker} (hInv : TrackerInv t) {p : String}
    (hc : p ∈ t.current_employee_panels) : process_panel_added p t = t := by
  by_cases hb : p ∈ BASE_PANELS
  · exact added_of_base t hb
  · unfold process_panel_added
    rw [if_neg hb]
    dsimp only
    rw [setInsert_of_mem hc, setInsert_of_mem (hInv.cur_sub_opened p hc)]
    rw [if_neg (show ¬(t.current_employee_panels.length >
        MAX_CONCURRENT_EMPLOYEE_PANELS) from by
      have := hInv.cur_le_cap; omega)]
    rw [Nat.max_eq_left hInv.cur_le_max]

lemma added_mem {t : PanelTracker} (hInv : TrackerInv t) {p : String}
    (hb : p ∉ BASE_PANELS) :
    p ∈ (process_panel_added p t).current_employee_panels := by
  unfold process_panel_added
  rw [if_neg hb]
  dsimp only
  by_cases hc : p ∈ t.current_employee_panels
  · rw [setInsert_of_mem hc]
    rw [if_neg (show ¬(t.current_employee_panels.length >
        MAX_CONCURRENT_EMPLOYEE_PANELS) from by
      have := hInv.cur_le_cap; omega)]
    exact hc
  · have h1 : setInsert t.current_employee_panels p =
        t.current_employee_panels ++ [p] := by
      unfold setInsert; rw [if_neg hc]
    rw [h1]
    split
    · rw [List.drop_append_of_le_length (by
        have h5 : MAX_CONCURRENT_EMPLOYEE_PANELS = 5 := rfl
        simp only [List.length_append, List.length_cons, List.length_nil]
        omega)]
      exact List.mem_append_right _ (by simp)
    · exact List.mem_append_right _ (by simp)

/-! ## Stable descending sort lemmas for the aggregator -/

lemma descLe_trans (key : Summary → Nat) :
    ∀ a b c : Summary, (fun a b => decide (key b ≤ key a)) a b →
      (fun a b => decide (key b ≤ key a)) b c →
      (fun a b => decide (key b ≤ key a)) a c := by
  intro a b c hab hbc
  simp only [decide_eq_true_eq] at *
  exact le_trans hbc hab

lemma descLe_total (key : Summary → Nat) :
    ∀ a b : Summary, ((fun a b => decide (key b ≤ key a)) a b ||
      (fun a b => decide (key b ≤ key a)) b a) = true := by
  intro a b
  simp only [Bool.or_eq_true, decide_eq_true_eq]
  exact Nat.le_total (key b) (key a)

lemma sortedByDesc_pairwise (key : Summary → Nat) (l : List Summary) :
    (sortedByDesc key l).Pairwise (fun a b => key b ≤ key a) := by
  have h := List.sorted_mergeSort (descLe_trans key) (descLe_total key) l
  exact h.imp (fun hab => by simpa using hab)

lemma sortedByDesc_filter (key : Summary → Nat) (l : List Summary) (v : Nat) :
    (sortedByDesc key l).filter (fun s => key s == v) =
      l.filter (fun s => key s == v) := by
  have hpw : (l.filter (fun s => key s == v)).Pairwise
      (fun a b : Summary => ((fun a b : Summary => decide (key b ≤ key a)) a b) = true) := by
    apply List.pairwise_of_forall_mem_list
    intro a ha b hb
    have ha' : key a = v := by simpa using (List.mem_filter.mp ha).2
    have hb' : key b = v := by simpa using (List.mem_filter.mp hb).2
    simp [ha', hb']
  have hsub : List.Sublist (l.filter (fun s => key s == v)) (sortedByDesc key l) :=
    List.sublist_mergeSort (descLe_trans key) (descLe_total key) hpw
      (List.filter_sublist l)
  have hperm : List.Perm ((sortedByDesc key l).filter (fun s => key s == v))
      (l.filter (fun s => key s == v)) :=
    (List.mergeSort_perm l _).filter _
  have hsub2 : List.Sublist (l.filter (fun s => key s == v))
      ((sortedByDesc key l).filter (fun s => key s == v)) := by
    have h1 := hsub.filter (fun s => key s == v)
    rwa [List.filter_eq_self.mpr
      (fun a ha => (List.mem_filter.mp ha).2)] at h1
  exact (hsub2.eq_of_length hperm.length_eq.symm).symm

lemma filter_take_prefix (p : Summary → Bool) (l : List Summary) (n : Nat) :
    (l.take n).filter p <+: l.filter p :=
  ⟨(l.drop n).filter p, by rw [← List.filter_append, List.take_append_drop]⟩

lemma topTen_spec (key : Summary → Nat) (l : List Summary) :
    ((sortedByDesc key l).take 10).Pairwise (fun a b => key b ≤ key a) ∧
    ∀ v : Nat, ((sortedByDesc key l).take 10).filter (fun s => key s == v) <+:
      l.filter (fun s => key s == v) := by
  constructor
  · exact (sortedByDesc_pairwise key l).sublist (List.take_sublist _ _)
  · intro v
    have h1 := filter_take_prefix (fun s => key s == v) (sortedByDesc key l) 10
    rwa [sortedByDesc_filter key l v] at h1

/-! ## The claims -/

/-- C1: for every event sequence processed by one `PanelTracker` from the
fresh state, after each event the open employee panel set
(`current_employee_panels`) has size at most the configured cap of 5. -/
theorem C1_cap_invariant (events : List Event) :
    (runEvents events).current_employee_panels.length ≤ 5 :=
  (inv_runFrom (inv_init "U") events).cur_le_cap

/-- C2: evaluation of the code on the scenario
`Added(EMP1), Added(EMP2), Activated(EMP1), Activated(EMP2), Removed(EMP1)`:
the summary has `unique_employee_panels_opened = 2` and
`max_concurrent_employee_panels = 2` as the claim states, but
`employee_panel_switches = 0`, not 1: the inner guard
`panel in self.activation_history` is false at `Activated(EMP2)` because a
panel only enters `activation_history` when it is itself activated, so a
first activation never counts as a switch.  The repository's own tests
(`test_panel_tracker_employee_panels`,
`test_analyze_panel_usage_integration`) assert 1 for this scenario. -/
theorem C2_scenario_eval :
    (get_summary (runEvents [Event.added "EMP1", Event.added "EMP2",
        Event.activated "EMP1", Event.activated "EMP2",
        Event.removed "EMP1"])).unique_employee_panels_opened = 2 ∧
    (get_summary (runEvents [Event.added "EMP1", Event.added "EMP2",
        Event.activated "EMP1", Event.activated "EMP2",
        Event.removed "EMP1"])).max_concurrent_employee_panels = 2 ∧
    (get_summary (runEvents [Event.added "EMP1", Event.added "EMP2",
        Event.activated "EMP1", Event.activated "EMP2",
        Event.removed "EMP1"])).employee_panel_switches = 0 :=
  ⟨rfl, rfl, rfl⟩

/-- C3 counterexample: the event `Activated(EMP1)` appended to
`[Activated(EMP1), Added(EMP1), Added(EMP2), Activated(EMP2)]` is the first
`Activated` of `EMP1` after its own `Added` (no other `Activated(EMP1)`
occurs between the `Added` and it), yet it increments the switch counter
from 0 to 1, because `EMP1` was already in `activation_history` from its
activation before the `Added`.  This refutes the claim's clause that the
first `Activated` of a panel after its own `Added` never increments the
counter. -/
theorem C3_counterexample :
    (runEvents [Event.activated "EMP1", Event.added "EMP1",
      Event.added "EMP2", Event.activated "EMP2"]).employee_panel_switches
      = 0 ∧
    (runEvents [Event.activated "EMP1", Event.added "EMP1",
      Event.added "EMP2", Event.activated "EMP2",
      Event.activated "EMP1"]).employee_panel_switches = 1 :=
  ⟨rfl, rfl⟩

/-- C3 (amended): the switch counter changes only on an `Activated` event
for a non-base panel `p` satisfying `switchCond` (a truthy recorded
last-activated panel differing from `p`, `p` currently open, and `p`
present in `activation_history`), in which case it increments by one; no
`Added` or `Removed` event ever changes it; and an `Activated` event for a
panel absent from `activation_history` never increments it (so the first
`Activated` after an `Added` increments only when the panel was already in
the activation record from an activation preceding the `Added`). -/
theorem C3_switch_characterization (t : PanelTracker) (p : String) :
    ((process_panel_activated p t).employee_panel_switches =
      if p ∉ BASE_PANELS ∧ switchCond t p then t.employee_panel_switches + 1
      else t.employee_panel_switches) ∧
    (process_panel_added p t).employee_panel_switches =
      t.employee_panel_switches ∧
    (process_panel_removed p t).employee_panel_switches =
      t.employee_panel_switches ∧
    (p ∉ t.activation_history →
      (process_panel_activated p t).employee_panel_switches =
        t.employee_panel_switches) := by
  refine ⟨activated_switches p t, added_switches p t, removed_switches p t,
    fun hp => ?_⟩
  rw [activated_switches, if_neg (fun hc => hp hc.2.2.2.2.1)]

/-- C3 witness: on a fresh tracker, activating `EMP1` (absent from the
activation record) leaves the switch counter unchanged. -/
theorem C3_witness :
    (process_panel_activated "EMP1"
      (initTracker "U")).employee_panel_switches =
      (initTracker "U").employee_panel_switches :=
  (C3_switch_characterization (initTracker "U") "EMP1").2.2.2 (by decide)

/-- C4 counterexample: from the fresh (reachable) tracker state, processing
`Added(EMP1)` then `Removed(EMP1)` restores the open employee panel set but
raises `max_concurrent_employee_panels` from 0 to 1, so the pair is not a
no-op on `max_concurrent_employee_panels` as the claim states. -/
theorem C4_counterexample :
    (process_panel_removed "EMP1" (process_panel_added "EMP1"
        (initTracker "U"))).current_employee_panels =
      (initTracker "U").current_employee_panels ∧
    (initTracker "U").max_concurrent_employee_panels = 0 ∧
    (process_panel_removed "EMP1" (process_panel_added "EMP1"
        (initTracker "U"))).max_concurrent_employee_panels = 1 :=
  ⟨rfl, rfl, rfl⟩

/-- C4 (amended): for any tracker state and employee panel `p` that is not
currently open, with the open set below the cap, `Added(p)` immediately
followed by `Removed(p)` restores `current_employee_panels` exactly, and
sets `max_concurrent_employee_panels` to the maximum of its previous value
and the previous open-set size plus one — so the high-water mark is
unchanged iff it was already at least that size. -/
theorem C4_add_remove_roundtrip (t : PanelTracker) (p : String)
    (hb : p ∉ BASE_PANELS) (hc : p ∉ t.current_employee_panels)
    (hlen : t.current_employee_panels.length <
      MAX_CONCURRENT_EMPLOYEE_PANELS) :
    (process_panel_removed p
        (process_panel_added p t)).current_employee_panels =
      t.current_employee_panels ∧
    (process_panel_removed p
        (process_panel_added p t)).max_concurrent_employee_panels =
      max t.max_concurrent_employee_panels
        (t.current_employee_panels.length + 1) := by
  have hins : setInsert t.current_employee_panels p =
      t.current_employee_panels ++ [p] := by
    unfold setInsert; rw [if_neg hc]
  have hadd : process_panel_added p t =
      { t with
          employee_panels_opened := setInsert t.employee_panels_opened p
          current_employee_panels := t.current_employee_panels ++ [p]
          max_concurrent_employee_panels :=
            max t.max_concurrent_employee_panels
              (t.current_employee_panels.length + 1) } := by
    unfold process_panel_added
    rw [if_neg hb]
    dsimp only
    rw [hins]
    rw [if_neg (show ¬((t.current_employee_panels ++ [p]).length >
        MAX_CONCURRENT_EMPLOYEE_PANELS) from by
      simp only [List.length_append, List.length_cons, List.length_nil]
      omega)]
    simp only [List.length_append, List.length_cons, List.length_nil]
  rw [hadd, removed_of_not_base _ hb]
  refine ⟨?_, rfl⟩
  dsimp only
  rw [List.erase_append_right _ hc, List.erase_cons_head, List.append_nil]

/-- C4 witness: the amended round-trip at the fresh tracker with `EMP1`. -/
theorem C4_witness :
    (process_panel_removed "EMP1" (process_panel_added "EMP1"
        (initTracker "W"))).current_employee_panels =
      (initTracker "W").current_employee_panels ∧
    (process_panel_removed "EMP1" (process_panel_added "EMP1"
        (initTracker "W"))).max_concurrent_employee_panels =
      max (initTracker "W").max_concurrent_employee_panels
        ((initTracker "W").current_employee_panels.length + 1) :=
  C4_add_remove_roundtrip (initTracker "W") "EMP1" (by decide) (by decide)
    (by decide)

/-- C5 counterexample: after `Activated/Added` pairs for the six distinct
panels A–F, the sixth `Added` triggers the cap eviction, which removes "A"
from the open employee panel set but leaves "A" in `activation_history`:
the eviction fallback does not clear the activation record, refuting the
claim for eviction-removed names. -/
theorem C5_counterexample :
    "A" ∈ (runEvents [Event.activated "A", Event.added "A",
      Event.activated "B", Event.added "B", Event.activated "C",
      Event.added "C", Event.activated "D", Event.added "D",
      Event.activated "E", Event.added "E",
      Event.activated "F"]).current_employee_panels ∧
    "A" ∉ (runEvents [Event.activated "A", Event.added "A",
      Event.activated "B", Event.added "B", Event.activated "C",
      Event.added "C", Event.activated "D", Event.added "D",
      Event.activated "E", Event.added "E", Event.activated "F",
      Event.added "F"]).current_employee_panels ∧
    "A" ∈ (runEvents [Event.activated "A", Event.added "A",
      Event.activated "B", Event.added "B", Event.activated "C",
      Event.added "C", Event.activated "D", Event.added "D",
      Event.activated "E", Event.added "E", Event.activated "F",
      Event.added "F"]).activation_history := by
  refine ⟨?_, ?_, ?_⟩ <;> decide

/-- C5 (amended): in every reachable tracker state, a `Removed(p)` event
leaves `activation_history` without any occurrence of `p`, while the
`Added` handler (including its cap-eviction fallback) never changes
`activation_history` at all. -/
theorem C5_removed_clears_history (t : PanelTracker) (h : Reachable t)
    (p q : String) :
    p ∉ (process_panel_removed p t).activation_history ∧
    (process_panel_added q t).activation_history = t.activation_history := by
  constructor
  · by_cases hb : p ∈ BASE_PANELS
    · rw [removed_of_base t hb]
      exact fun hp => (reachable_inv h).hist_nonbase p hp hb
    · rw [removed_of_not_base t hb]
      exact (reachable_inv h).hist_nodup.not_mem_erase
  · exact added_history q t

/-- C5 witness: the amended claim at the reachable state reached by
`Activated(EMP1), Added(EMP1)`. -/
theorem C5_witness :
    "EMP1" ∉ (process_panel_removed "EMP1"
      (runEvents [Event.activated "EMP1",
        Event.added "EMP1"])).activation_history ∧
    (process_panel_added "EMP2"
      (runEvents [Event.activated "EMP1",
        Event.added "EMP1"])).activation_history =
      (runEvents [Event.activated "EMP1",
        Event.added "EMP1"]).activation_history :=
  C5_removed_clears_history _
    ⟨"U", [Event.activated "EMP1", Event.added "EMP1"], rfl⟩ "EMP1" "EMP2"

/-- C6: events on base panels never change the six employee-panel state
fields (bundled in `employeeState`), and events on non-base panels never
change `base_panel_activations`, for each of the three handlers. -/
theorem C6_base_employee_frame (t : PanelTracker) (p : String) :
    (p ∈ BASE_PANELS →
      employeeState (process_panel_activated p t) = employeeState t ∧
      employeeState (process_panel_added p t) = employeeState t ∧
      employeeState (process_panel_removed p t) = employeeState t) ∧
    (p ∉ BASE_PANELS →
      (process_panel_activated p t).base_panel_activations =
        t.base_panel_activations ∧
      (process_panel_added p t).base_panel_activations =
        t.base_panel_activations ∧
      (process_panel_removed p t).base_panel_activations =
        t.base_panel_activations) := by
  constructor
  · intro hb
    refine ⟨?_, ?_, ?_⟩
    · rw [activated_of_base t hb]; rfl
    · rw [added_of_base t hb]
    · rw [removed_of_base t hb]
  · intro hb
    exact ⟨activated_counts_of_not_base t hb, added_counts p t,
      removed_counts p t⟩

/-- C6 witness: activating the base panel "employees" leaves the employee
state of a fresh tracker unchanged, and activating the employee panel
"EMP1" leaves its base-panel counter unchanged. -/
theorem C6_witness :
    employeeState (process_panel_activated "employees" (initTracker "V")) =
      employeeState (initTracker "V") ∧
    (process_panel_activated "EMP1"
        (initTracker "V")).base_panel_activations =
      (initTracker "V").base_panel_activations :=
  ⟨((C6_base_employee_frame (initTracker "V") "employees").1 (by decide)).1,
   ((C6_base_employee_frame (initTracker "V") "EMP1").2 (by decide)).1⟩

/-- C7: each of the four top-10 rankings of `generate_aggregate_stats` is
sorted in descending order of its metric, and for every metric value the
ranked entries carrying that value form a prefix of the input entries
carrying that value — i.e. ties are listed in first-encountered input
order. -/
theorem C7_top_rankings (l : List Summary) :
    ((top_base_users l).Pairwise (fun a b =>
        b.total_base_activations ≤ a.total_base_activations) ∧
      ∀ v : Nat, (top_base_users l).filter
          (fun s => s.total_base_activations == v) <+:
        l.filter (fun s => s.total_base_activations == v)) ∧
    ((top_employee_panel_users l).Pairwise (fun a b =>
        b.unique_employee_panels_opened ≤ a.unique_employee_panels_opened) ∧
      ∀ v : Nat, (top_employee_panel_users l).filter
          (fun s => s.unique_employee_panels_opened == v) <+:
        l.filter (fun s => s.unique_employee_panels_opened == v)) ∧
    ((top_concurrent_users l).Pairwise (fun a b =>
        b.max_concurrent_employee_panels ≤
          a.max_concurrent_employee_panels) ∧
      ∀ v : Nat, (top_concurrent_users l).filter
          (fun s => s.max_concurrent_employee_panels == v) <+:
        l.filter (fun s => s.max_concurrent_employee_panels == v)) ∧
    ((top_switchers l).Pairwise (fun a b =>
        b.employee_panel_switches ≤ a.employee_panel_switches) ∧
      ∀ v : Nat, (top_switchers l).filter
          (fun s => s.employee_panel_switches == v) <+:
        l.filter (fun s => s.employee_panel_switches == v)) :=
  ⟨topTen_spec (fun x => x.total_base_activations) l,
   topTen_spec (fun x => x.unique_employee_panels_opened) l,
   topTen_spec (fun x => x.max_concurrent_employee_panels) l,
   topTen_spec (fun x => x.employee_panel_switches) l⟩

/-- C8: after any event sequence from the fresh state,
`max_concurrent_employee_panels` is at least the current size of the open
employee panel set. -/
theorem C8_max_ge_current (events : List Event) :
    (runEvents events).current_employee_panels.length ≤
      (runEvents events).max_concurrent_employee_panels :=
  (inv_runFrom (inv_init "U") events).cur_le_max

/-- C9: in every reachable state, processing `Added(p)` for a panel `p`
already in the open employee panel set leaves the whole tracker state
unchanged; equivalently processing `Added(p)` twice in succession equals
processing it once. -/
theorem C9_added_idempotent (t : PanelTracker) (p : String)
    (h : Reachable t) :
    (p ∈ t.current_employee_panels → process_panel_added p t = t) ∧
    process_panel_added p (process_panel_added p t) =
      process_panel_added p t := by
  have hInv := reachable_inv h
  constructor
  · exact fun hc => added_noop hInv hc
  · by_cases hb : p ∈ BASE_PANELS
    · rw [added_of_base t hb, added_of_base t hb]
    · exact added_noop (inv_added hInv p) (added_mem hInv hb)

/-- C9 witness: adding `EMP1` to the reachable state already containing it
is a no-op. -/
theorem C9_witness :
    process_panel_added "EMP1"
        (runFrom (initTracker "U") [Event.added "EMP1"]) =
      runFrom (initTracker "U") [Event.added "EMP1"] :=
  (C9_added_idempotent _ "EMP1" ⟨"U", [Event.added "EMP1"], rfl⟩).1
    (by decide)

/-- C10: for every tracker state and non-base panel `p`, `Activated(p)`
leaves `current_employee_panels`, `employee_panels_opened` and
`max_concurrent_employee_panels` unchanged — even if `p` was never added —
while it sets `last_activated_employee_panel` to `p` and appends `p` to
`activation_history` when absent (`setInsert`). -/
theorem C10_activated_frame (t : PanelTracker) (p : String)
    (hb : p ∉ BASE_PANELS) :
    (process_panel_activated p t).current_employee_panels =
      t.current_employee_panels ∧
    (process_panel_activated p t).employee_panels_opened =
      t.employee_panels_opened ∧
    (process_panel_activated p t).max_concurrent_employee_panels =
      t.max_concurrent_employee_panels ∧
    (process_panel_activated p t).last_activated_employee_panel = some p ∧
    (process_panel_activated p t).activation_history =
      setInsert t.activation_history p :=
  ⟨activated_current p t, activated_opened p t, activated_max p t,
   activated_last_of_not_base t hb, activated_history_of_not_base t hb⟩

/-- C10 witness: activating the never-added employee panel `EMP9` on a
fresh tracker changes none of the three set/counter fields. -/
theorem C10_witness :
    (process_panel_activated "EMP9"
        (initTracker "V")).current_employee_panels =
      (initTracker "V").current_employee_panels ∧
    (process_panel_activated "EMP9"
        (initTracker "V")).employee_panels_opened =
      (initTracker "V").employee_panels_opened ∧
    (process_panel_activated "EMP9"
        (initTracker "V")).max_concurrent_employee_panels =
      (initTracker "V").max_concurrent_employee_panels ∧
    (process_panel_activated "EMP9"
        (initTracker "V")).last_activated_employee_panel = some "EMP9" ∧
    (process_panel_activated "EMP9" (initTracker "V")).activation_history =
      setInsert (initTracker "V").activation_history "EMP9" :=
  C10_activated_frame (initTracker "V") "EMP9" (by decide)
